import Mathlib

/-!
Verification development for the MoodMusic2 backend recommendation pipeline.

The definitions below are a shallow embedding of the Python source:

* `backend/services/requests_utils.py` — `normalize_limit`,
  `compute_first_request_size`, `compute_second_request_size`;
* `backend/controllers/search_controller.py` — `resolve_popularity_constraints`,
  `_song_identity`, `add_unique_songs`, `filter_by_popularity_with_seen`,
  the finalize/backfill stage and `generate_recommendations`;
* `backend/services/spotify_service.py` — `enrich_songs`, `_build_track_payload`,
  `_clean_title`, `_primary_artist`;
* `backend/services/gemini_service.py` — the parse/salvage stage of
  `recommend_songs`.

Python dicts are modelled by structures carrying the claim-relevant fields;
a key that may be absent becomes an `Option`.  Exceptions are modelled with
`Except`; the external AI suggester and the Spotify search are oracles
(function parameters), so theorems quantify over every possible response.
The repository ships no `backend/configs/config.json`, so `Config.get`
always falls back to the hard-coded defaults used below.
-/

/-- Lowercasing as used by Python `str.lower()` (titles/ids here are ASCII). -/
def lower_str (s : String) : String := String.mk (s.data.map Char.toLower)

/-- Python's `\s` whitespace class (also what `str.strip()` removes). -/
def is_py_space (c : Char) : Bool :=
  c = ' ' || c = '\t' || c = '\n' || c = '\r' || c = '\x0b' || c = '\x0c'

/-- Python `str.strip()`: drop leading and trailing whitespace. -/
def py_strip (s : String) : String :=
  String.mk (((s.data.dropWhile is_py_space).reverse.dropWhile is_py_space).reverse)

/-- A song dict as it flows through the controller: the claim-relevant keys of
the payloads built by `spotify_service.enrich_songs`.  `popularity` is the
value of the `"popularity"` key when that key is present. -/
structure Song where
  id : Option String
  title : String
  artist : String
  popularity : Option Int
  deriving DecidableEq, Repr

/-- An AI-suggested candidate (a dict with `title` and `artist` keys), as
validated by `gemini_service.recommend_songs` before it is returned. -/
structure AiSong where
  title : String
  artist : String
  deriving DecidableEq, Repr

/-- Python exceptions that the modelled code can raise. -/
inductive PyErr where
  | attributeError
  | typeError
  | geminiApiError
  deriving DecidableEq, Repr

/-! ## requests_utils.py -/

/-- `normalize_limit` (requests_utils.py:52).  The raw request value is
modelled by its `int()` parse result: `none` when `int(raw_limit)` raises
`ValueError`/`TypeError`.  Config defaults: default 10, min 10, max 50. -/
def normalize_limit (raw : Option Int) : Int :=
  match raw with
  | none => 10
  | some v => if v < 10 ∨ 50 < v then 10 else v

/-- `compute_first_request_size` (requests_utils.py:83).  Config defaults:
cap 30, multiplier 1.5.  `int(limit * 1.5)` equals `3 * limit / 2` (floor)
for every limit `normalize_limit` can produce.  The `popularity_label`
parameter is accepted but never read by the source body. -/
def compute_first_request_size (limit : Nat) (popularity_label : Option String) : Nat :=
  let cap := 30
  let base := max (3 * limit / 2) limit
  min base cap

/-- `compute_second_request_size` (requests_utils.py:95).  Config defaults:
cap 40, floor 5, multiplier 2.0. -/
def compute_second_request_size (remaining_needed : Nat) : Nat :=
  min (max (2 * remaining_needed) 5) 40

/-! ## resolve_popularity_constraints (search_controller.py:78) -/

/-- The resolved constraint record returned by `resolve_popularity_constraints`. -/
structure PopConstraint where
  popularity_label : Option String
  min_popularity : Option Int
  max_popularity : Option Int
  deriving DecidableEq, Repr

/-- The request payload fields read by `resolve_popularity_constraints`:
`popularity_label` is the value when it is a string (absent or non-string
values behave identically to `none`); `popularity_range` is `some (a, b)`
when the value is a 2-element list whose entries both survive `int()`;
`legacy` is the legacy `popularity` value when present and parseable. -/
structure PopInput where
  popularity_label : Option String
  popularity_range : Option (Int × Int)
  legacy : Option Int
  deriving DecidableEq, Repr

/-- Label normalisation (search_controller.py:88-94): strip, canonicalise
case-insensitive "any", drop empty strings. -/
def clean_label (l : Option String) : Option String :=
  match l with
  | none => none
  | some s =>
    let t := py_strip s
    let t := if lower_str t = "any" then "Any" else t
    if t = "" then none else some t

/-- `self.popularity_ranges` (search_controller.py:40-48); `"Any"` maps to
`None` in the dict and unknown labels miss, both falsy to `if mapped:`. -/
def popularity_ranges (label : String) : Option (Int × Int) :=
  if label = "Global / Superstar" then some (90, 100)
  else if label = "Hot / Established" then some (75, 89)
  else if label = "Buzzing / Moderate" then some (50, 74)
  else if label = "Growing" then some (25, 49)
  else if label = "Rising" then some (15, 24)
  else if label = "Under the Radar" then some (0, 14)
  else none

/-- `self.popularity_extra_tolerance.get(label_clean, 0)`
(search_controller.py:50-54,125). -/
def extra_tolerance (label : Option String) : Int :=
  match label with
  | some "Growing" => 10
  | some "Rising" => 12
  | some "Under the Radar" => 15
  | _ => 0

/-- `self.popularity_tolerance` (search_controller.py:49). -/
def base_tolerance : Int := 5

/-- The label-derived band (search_controller.py:106-111): consulted only
when no valid explicit range was supplied. -/
def label_band (label_clean : Option String) : Option (Int × Int) :=
  match label_clean with
  | some l => popularity_ranges l
  | none => none

/-- The legacy fallback (search_controller.py:113-122): a 1-10 value maps to
`[(value - 1) * 10, 100]`; out-of-range or unparseable values give nothing. -/
def legacy_band (legacy : Option Int) : Option (Int × Int) :=
  match legacy with
  | some v => if 1 ≤ v ∧ v ≤ 10 then some ((v - 1) * 10, 100) else none
  | none => none

/-- The raw `(range_min, range_max)` pair after the priority chain of
search_controller.py:96-122: explicit client range, else label band, else
legacy value. -/
def resolved_raw_band (d : PopInput) : Option (Int × Int) :=
  match d.popularity_range with
  | some p => some p
  | none =>
    match label_band (clean_label d.popularity_label) with
    | some p => some p
    | none => legacy_band d.legacy

/-- `resolve_popularity_constraints` (search_controller.py:78-133): the raw
band widened by base plus per-label extra tolerance, clamped to [0, 100]
(search_controller.py:124-127). -/
def resolve_popularity_constraints (d : PopInput) : PopConstraint :=
  let label_clean := clean_label d.popularity_label
  let extra := extra_tolerance label_clean
  { popularity_label := label_clean
    min_popularity := (resolved_raw_band d).map (fun p => max 0 (p.1 - base_tolerance - extra))
    max_popularity := (resolved_raw_band d).map (fun p => min 100 (p.2 + base_tolerance + extra)) }

/-! ## Dedup/filter engine (search_controller.py:135-184) -/

/-- `_song_identity` (search_controller.py:135-147).  `song.get("id")` is
truthy exactly when the key holds a non-empty string; the fallback key uses
the stripped, lowercased title and artist and is `None` when both are empty.
All songs reaching this function are dicts. -/
def song_identity (s : Song) : Option String :=
  match s.id with
  | some i =>
    if i ≠ "" then some ("id:" ++ lower_str (py_strip i))
    else
      let t := lower_str (py_strip s.title)
      let a := lower_str (py_strip s.artist)
      if t ≠ "" ∨ a ≠ "" then some (t ++ "|" ++ a) else none
  | none =>
    let t := lower_str (py_strip s.title)
    let a := lower_str (py_strip s.artist)
    if t ≠ "" ∨ a ≠ "" then some (t ++ "|" ++ a) else none

/-- `add_unique_songs` (search_controller.py:149-159).  The Python function
mutates `target_list` and `seen_keys`; here both are threaded explicitly. -/
def add_unique_songs (target : List Song) (songs : List Song) (seen : List String) :
    List Song × List String :=
  match songs with
  | [] => (target, seen)
  | s :: rest =>
    match song_identity s with
    | some k =>
      if k ∈ seen then add_unique_songs target rest seen
      else add_unique_songs (target ++ [s]) rest (k :: seen)
    | none => add_unique_songs (target ++ [s]) rest seen

/-- `pop < min_popularity` test of search_controller.py:174. -/
def below_min (min_popularity : Option Int) (p : Int) : Bool :=
  match min_popularity with
  | some m => decide (p < m)
  | none => false

/-- `pop > max_popularity` test of search_controller.py:176. -/
def above_max (max_popularity : Option Int) (p : Int) : Bool :=
  match max_popularity with
  | some m => decide (m < p)
  | none => false

/-- The per-song loop of `filter_by_popularity_with_seen`
(search_controller.py:171-184).  `song.get("popularity", 0)` becomes
`s.popularity.getD 0`. -/
def filter_loop (acc : List Song) (songs : List Song) (min_popularity max_popularity : Option Int)
    (seen : List String) : List Song × List String :=
  match songs with
  | [] => (acc, seen)
  | s :: rest =>
    let p := s.popularity.getD 0
    if below_min min_popularity p then filter_loop acc rest min_popularity max_popularity seen
    else if above_max max_popularity p then filter_loop acc rest min_popularity max_popularity seen
    else
      match song_identity s with
      | some k =>
        if k ∈ seen then filter_loop acc rest min_popularity max_popularity seen
        else filter_loop (acc ++ [s]) rest min_popularity max_popularity (k :: seen)
      | none => filter_loop (acc ++ [s]) rest min_popularity max_popularity seen

/-- `filter_by_popularity_with_seen` (search_controller.py:165-184): with both
bounds `None` it degenerates to a pure dedup pass via `add_unique_songs`. -/
def filter_by_popularity_with_seen (songs : List Song) (min_popularity max_popularity : Option Int)
    (seen : List String) : List Song × List String :=
  if min_popularity = none ∧ max_popularity = none then add_unique_songs [] songs seen
  else filter_loop [] songs min_popularity max_popularity seen

/-! ## Finalize / backfill stage (search_controller.py:242-253) -/

/-- The padding loop of search_controller.py:247-251: walk the full pool,
appending previously unseen entries until `limit` is reached. -/
def pad_loop (padded : List Song) (pool : List Song) (seen : List String) (limit : Nat) :
    List Song × List String :=
  match pool with
  | [] => (padded, seen)
  | s :: rest =>
    if limit ≤ padded.length then (padded, seen)
    else
      let step := add_unique_songs padded [s] seen
      pad_loop step.1 rest step.2 limit

/-- The guard of search_controller.py:244-245:
`attempts_exhausted = attempt >= max_attempts or len(filtered) < limit`,
then `attempts_exhausted and len(filtered) < limit and enriched_songs`. -/
def backfill_invoked (pool : List Song) (min_popularity max_popularity : Option Int)
    (limit attempt max_attempts : Nat) : Bool :=
  let filtered := (filter_by_popularity_with_seen pool min_popularity max_popularity []).1
  (decide (max_attempts ≤ attempt) || decide (filtered.length < limit))
    && decide (filtered.length < limit) && !pool.isEmpty

/-- Lines 242-253 of `generate_recommendations`: re-filter the accumulated
pool with a fresh seen-set, pad with unfiltered results when short, and
truncate to `limit`. -/
def finalize_songs (pool : List Song) (min_popularity max_popularity : Option Int)
    (limit attempt max_attempts : Nat) : List Song :=
  let filtered := (filter_by_popularity_with_seen pool min_popularity max_popularity []).1
  let filtered_seen := filtered.filterMap song_identity
  let filtered2 :=
    if backfill_invoked pool min_popularity max_popularity limit attempt max_attempts then
      (pad_loop filtered pool filtered_seen limit).1
    else filtered
  filtered2.take limit

/-! ## Spotify enrichment (spotify_service.py:53-163) -/

/-- The claim-relevant fields of a raw Spotify track dict consumed by
`_build_track_payload`: `name` and the artist list may be missing/empty. -/
structure SpotifyTrack where
  id : Option String
  name : Option String
  artist_names : List String
  deriving DecidableEq, Repr

/-- `_build_track_payload` (spotify_service.py:148-163), projected onto the
`Song` fields.  The source dict literal contains no `"popularity"` key, so
`popularity := none`.  A missing `name`/artist behaves as `""` downstream
(`_song_identity` applies `str(... or "")`). -/
def build_track_payload (t : SpotifyTrack) : Song :=
  { id := t.id
    title := t.name.getD ""
    artist := (t.artist_names.head?).getD ""
    popularity := none }

/-- The fallback "basic entry" of spotify_service.py:71-83 and 86-98:
`id` is `None`, title/artist echo the AI candidate, and the dict carries
no `"popularity"` key. -/
def basic_entry (s : AiSong) : Song :=
  { id := none, title := s.title, artist := s.artist, popularity := none }

/-- `enrich_songs` (spotify_service.py:53-101).  `lookup` is the outcome of
`search_track` for one candidate: `.ok (some t)` a confident match,
`.ok none` no match, `.error ()` any exception raised during the lookup —
caught per-track (spotify_service.py:84) and replaced by the basic entry. -/
def enrich_songs (lookup : AiSong → Except Unit (Option SpotifyTrack)) (songs : List AiSong) :
    List Song :=
  songs.map fun song =>
    match lookup song with
    | .ok (some t) => build_track_payload t
    | .ok none => basic_entry song
    | .error _ => basic_entry song

/-! ## generate_recommendations (search_controller.py:186-259) -/

/-- The cross-round AI-level dedup key of search_controller.py:213:
`f"{song.get('title', '').lower()}|{song.get('artist', '').lower()}"`
(no strip, unlike the catalog identity key). -/
def ai_key (s : AiSong) : String := lower_str s.title ++ "|" ++ lower_str s.artist

/-- The new-song selection of search_controller.py:211-216: keep candidates
whose AI-level key is not in `all_requested_songs`, recording each key. -/
def dedupe_new (songs : List AiSong) (all_requested : List String) :
    List AiSong × List String :=
  match songs with
  | [] => ([], all_requested)
  | s :: rest =>
    let k := ai_key s
    if k ∈ all_requested then dedupe_new rest all_requested
    else
      let step := dedupe_new rest (all_requested ++ [k])
      (s :: step.1, step.2)

/-- `request_and_enrich` (search_controller.py:197-225).  `res` is the value
or exception produced by `mood_service.recommend_songs` for this round.
When any new candidate survives the AI-level dedup, the source reaches
line 222: `spotify_service.enrich_songs(new_songs, min_popularity=min_popularity)`.
`SpotifyService.enrich_songs(self, songs)` (spotify_service.py:53) accepts no
`min_popularity` parameter and no `**kwargs`, so that call raises `TypeError`
before any enrichment runs; the embedding records this as `.error .typeError`. -/
def request_and_enrich (res : Except PyErr (List AiSong))
    (all_requested : List String) (enriched_seen : List String) :
    Except PyErr (List Song × List String × List String) :=
  match res with
  | .error e => .error e
  | .ok songs_from_ai =>
    if songs_from_ai.isEmpty then .ok ([], all_requested, enriched_seen)
    else
      let step := dedupe_new songs_from_ai all_requested
      if step.1.isEmpty then .ok ([], step.2, enriched_seen)
      else .error .typeError

/-- `Config.get_ai_provider()` as called at search_controller.py:191.  The
`Config` class (config.py) defines no `get_ai_provider` method and nothing
in the source assigns one, so the attribute lookup raises `AttributeError`. -/
def config_get_ai_provider : Except PyErr String := .error .attributeError

/-- The acquisition rounds of `generate_recommendations`
(search_controller.py:192-259): everything after the line-191 provider
lookup.  `r1`, `r2` are the outcomes of the (at most two) AI-suggester
calls; config defaults give `max_attempts = 2` and threshold
`max(1, int(limit * 0.5))`. -/
def generate_recommendations_rounds (r1 r2 : Except PyErr (List AiSong)) (limit : Nat)
    (min_popularity max_popularity : Option Int) : Except PyErr (List Song) :=
  let max_attempts := 2
  match request_and_enrich r1 [] [] with
  | .error e => .error e
  | .ok (batch1, all_req1, seen1) =>
    let enriched1 := batch1
    let filtered_count :=
      (filter_by_popularity_with_seen enriched1 min_popularity max_popularity []).1.length
    let threshold := max 1 (limit / 2)
    if 1 < max_attempts ∧ filtered_count < threshold then
      match request_and_enrich r2 all_req1 seen1 with
      | .error e => .error e
      | .ok (batch2, _, _) =>
        .ok (finalize_songs (enriched1 ++ batch2) min_popularity max_popularity limit 2 max_attempts)
    else .ok (finalize_songs enriched1 min_popularity max_popularity limit 1 max_attempts)

/-- `generate_recommendations` (search_controller.py:186-259).  Its first
statement, `provider = Config.get_ai_provider()` (line 191), raises
`AttributeError` because `Config` defines no such method, so in the source
as staged the acquisition rounds below it are never reached. -/
def generate_recommendations (r1 r2 : Except PyErr (List AiSong)) (limit : Nat)
    (min_popularity max_popularity : Option Int) : Except PyErr (List Song) :=
  match config_get_ai_provider with
  | .error e => .error e
  | .ok _provider => generate_recommendations_rounds r1 r2 limit min_popularity max_popularity

/-! ## Gemini parse/salvage stage (gemini_service.py:164-211, 247-291) -/

/-- One element of a parsed `songs` array: either a dict (whose `title` /
`artist` keys may be absent) or any non-dict JSON value. -/
inductive GeminiItem where
  | dict (title artist : Option String)
  | nonDict
  deriving DecidableEq, Repr

/-- The shape of a successfully parsed Gemini response, as discriminated by
gemini_service.py:179-187. -/
inductive ParsedJson where
  | dictWithSongs (items : List GeminiItem)
  | dictWithSongsNonList
  | dictNoSongs
  | jsonList (items : List GeminiItem)
  | other
  deriving DecidableEq, Repr

/-- The intra-response dedup key of gemini_service.py:194:
`str(title).strip().lower() + "|" + str(artist).strip().lower()`. -/
def gemini_key (t a : String) : String :=
  lower_str (py_strip t) ++ "|" ++ lower_str (py_strip a)

/-- The `valid_songs` loop of gemini_service.py:189-200: skip non-dicts and
entries missing `title` or `artist`, dedupe by key, and break once
`num_songs` entries have been collected (the check runs after appending). -/
def collect_valid_songs (items : List GeminiItem) (seen : List String)
    (count num_songs : Nat) : List AiSong :=
  match items with
  | [] => []
  | item :: rest =>
    match item with
    | .nonDict => collect_valid_songs rest seen count num_songs
    | .dict t a =>
      match t, a with
      | some t, some a =>
        let k := gemini_key t a
        if k ∈ seen then collect_valid_songs rest seen count num_songs
        else if num_songs ≤ count + 1 then [⟨t, a⟩]
        else ⟨t, a⟩ :: collect_valid_songs rest (k :: seen) (count + 1) num_songs
      | _, _ => collect_valid_songs rest seen count num_songs

/-- The parse-and-validate tail of `recommend_songs` (gemini_service.py:171-211).
`parse_content` is the outcome of `_extract_json(content)` and
`parse_salvaged` the outcome of `_extract_json(_salvage_to_last_complete_song(content))`
(`none` = `json` raised).  `_extract_json_with_salvage` tries the first and
falls back to the second; if both fail — or the parsed value lacks a usable
`songs` list — the exception reaches the handler at gemini_service.py:209,
which re-raises `Exception("Gemini API error: ...")`.  A parse that succeeds
but yields no valid entry returns `{'songs': []}` (gemini_service.py:202-204). -/
def recommend_songs_from_parse (parse_content parse_salvaged : Option ParsedJson)
    (num_songs : Nat) : Except PyErr (List AiSong) :=
  let parsed? :=
    match parse_content with
    | some p => some p
    | none => parse_salvaged
  match parsed? with
  | none => .error .geminiApiError
  | some parsed =>
    let songs? : Option (List GeminiItem) :=
      match parsed with
      | .dictWithSongs items => some items
      | .dictWithSongsNonList => none
      | .dictNoSongs => none
      | .jsonList items => some items
      | .other => none
    match songs? with
    | none => .error .geminiApiError
    | some items => .ok (collect_valid_songs items [] 0 num_songs)

/-! ## Title/artist normalisation (spotify_service.py:103-117)

`_clean_title` and `_primary_artist` are built from `re` substitutions; the
scanners below implement those regexes over `List Char`.  `\s` is Python's
whitespace class; `.` (which may not cross a newline) appears only as a
trailing `.*`, modelled by consuming to the end of the current line. -/

/-- Greedy `\s*`. -/
def skip_ws : List Char → List Char
  | [] => []
  | c :: rest => if is_py_space c then skip_ws rest else c :: rest

/-- Literal match; returns the remainder on success. -/
def match_lit : List Char → List Char → Option (List Char)
  | [], l => some l
  | _, [] => none
  | p :: ps, c :: cs => if p = c then match_lit ps cs else none

/-- Case-insensitive literal prefix test (for the `re.IGNORECASE` split). -/
def match_lit_ci : List Char → List Char → Bool
  | [], _ => true
  | _, [] => false
  | p :: ps, c :: cs => Char.toLower p = Char.toLower c && match_lit_ci ps cs

/-- `.*` at end of pattern: drop up to (not including) the next newline. -/
def rest_of_line : List Char → List Char
  | [] => []
  | c :: rest => if c = '\n' then c :: rest else rest_of_line rest

/-- `[\)\]]` terminator scan for the lazy `.*?` of
`re.sub(r"\s*[\(\[].*?[\)\]]", "", ...)`: consume to the nearest closing
bracket (failing at a newline, which `.` cannot match). -/
def drop_through_closer : List Char → Option (List Char)
  | [] => none
  | c :: rest =>
    if c = ')' ∨ c = ']' then some rest
    else if c = '\n' then none
    else drop_through_closer rest

/-- Try `\s*[\(\[].*?[\)\]]` at the head of the list; return the remainder
after the match. -/
def match_bracketed : List Char → Option (List Char)
  | [] => none
  | c :: rest =>
    if c = '(' ∨ c = '[' then drop_through_closer rest
    else if is_py_space c then match_bracketed rest
    else none

/-- `re.sub(r"\s*[\(\[].*?[\)\]]", "", lowered)` (spotify_service.py:107):
scan left to right replacing each match with the empty string.  Fuel is the
initial length; every successful match consumes at least two characters. -/
def strip_bracketed_aux : Nat → List Char → List Char
  | 0, l => l
  | _ + 1, [] => []
  | fuel + 1, c :: rest =>
    match match_bracketed (c :: rest) with
    | some after => strip_bracketed_aux fuel after
    | none => c :: strip_bracketed_aux fuel rest

def strip_bracketed (l : List Char) : List Char := strip_bracketed_aux l.length l

/-- The alternation of spotify_service.py:108 at a position just after
`-\s*`: `remaster(ed)?(?: \d{4})?|live.*|single mix|radio edit`.  Because a
trailing `.*` follows the group, a match exists exactly when one of the
four stems is a literal prefix; the returned remainder feeds that `.*`. -/
def dash_tag_alt (l : List Char) : Option (List Char) :=
  match match_lit "remaster".data l with
  | some r => some r
  | none =>
    match match_lit "live".data l with
    | some r => some r
    | none =>
      match match_lit "single mix".data l with
      | some r => some r
      | none => match_lit "radio edit".data l

/-- Try `\s*-\s*(remaster(ed)?(?: \d{4})?|live.*|single mix|radio edit)` at
the head; on success return the remainder after the alternation stem (the
trailing `.*` then eats the rest of the line). -/
def dash_tag_match (l : List Char) : Option (List Char) :=
  match skip_ws l with
  | '-' :: r => dash_tag_alt (skip_ws r)
  | _ => none

/-- `re.sub(r"\s*-\s*(remaster(ed)?(?: \d{4})?|live.*|single mix|radio edit).*", "", ...)`
(spotify_service.py:108). -/
def strip_dash_tags : Nat → List Char → List Char
  | 0, l => l
  | _ + 1, [] => []
  | fuel + 1, c :: rest =>
    match dash_tag_match (c :: rest) with
    | some r => strip_dash_tags fuel (rest_of_line r)
    | none => c :: strip_dash_tags fuel rest

/-- One alternative of spotify_service.py:109 followed by the mandatory
`\s+`: returns the remainder after the greedy whitespace run. -/
def feat_tok (tok : String) (l : List Char) : Option (List Char) :=
  match match_lit tok.data l with
  | some (c :: r) => if is_py_space c then some (skip_ws (c :: r)) else none
  | some [] => none
  | none => none

/-- `(feat\.?|ft\.?|featuring|with)\s+` with regex backtracking order. -/
def feat_alt (l : List Char) : Option (List Char) :=
  match feat_tok "feat." l with
  | some r => some r
  | none =>
    match feat_tok "feat" l with
    | some r => some r
    | none =>
      match feat_tok "ft." l with
      | some r => some r
      | none =>
        match feat_tok "ft" l with
        | some r => some r
        | none =>
          match feat_tok "featuring" l with
          | some r => some r
          | none => feat_tok "with" l

/-- `re.sub(r"\s*(feat\.?|ft\.?|featuring|with)\s+.*", "", ...)`
(spotify_service.py:109). -/
def strip_feat_tags : Nat → List Char → List Char
  | 0, l => l
  | _ + 1, [] => []
  | fuel + 1, c :: rest =>
    match feat_alt (skip_ws (c :: rest)) with
    | some r => strip_feat_tags fuel (rest_of_line r)
    | none => c :: strip_feat_tags fuel rest

/-- `re.sub(r"\s+", " ", ...)` (spotify_service.py:110): collapse whitespace
runs to a single space. -/
def collapse_ws : Bool → List Char → List Char
  | _, [] => []
  | prev_ws, c :: rest =>
    if is_py_space c then
      if prev_ws then collapse_ws true rest
      else ' ' :: collapse_ws true rest
    else c :: collapse_ws false rest

/-- `_clean_title` (spotify_service.py:103-111). -/
def clean_title (text : String) : String :=
  let lowered := (lower_str text).data
  let l1 := strip_bracketed lowered
  let l2 := strip_dash_tags l1.length l1
  let l3 := strip_feat_tags l2.length l2
  py_strip (String.mk (collapse_ws false l3))

/-- Does the split group of spotify_service.py:116 —
`(,|&|/| x | ft\.?| feat\.?| featuring )` with `re.IGNORECASE` — match at the
head of `l`?  Optional suffixes (`\.?`) and the trailing `\s*` of the full
pattern never affect whether a match starts here. -/
def sep_group_at (l : List Char) : Bool :=
  match_lit_ci ",".data l || match_lit_ci "&".data l || match_lit_ci "/".data l ||
  match_lit_ci " x ".data l || match_lit_ci " ft".data l ||
  match_lit_ci " feat".data l || match_lit_ci " featuring ".data l

/-- Does `\s*(,|&|/| x | ft\.?| feat\.?| featuring )\s*` match at the head of
`l`?  `\s*` backtracks, so the group may start after any prefix of the
whitespace run. -/
def sep_match_at : List Char → Bool
  | [] => false
  | c :: rest => sep_group_at (c :: rest) || (is_py_space c && sep_match_at rest)

/-- `re.split(pattern, artist, maxsplit=1, flags=re.IGNORECASE)[0]`: the text
before the leftmost separator match. -/
def before_sep : List Char → List Char
  | [] => []
  | c :: rest => if sep_match_at (c :: rest) then [] else c :: before_sep rest

/-- `_primary_artist` (spotify_service.py:113-117). -/
def primary_artist (artist : String) : String :=
  py_strip (String.mk (before_sep artist.data))

/-- The catalog-identity keys (in order) of the entries of a song list that
have one; used to state the dedup invariant. -/
def keys_of (l : List Song) : List String := l.filterMap song_identity

/-- The identity key exactly as the spec words it: `"id:" + lowercased(id)`
when `id` is present, else `lowercased(title) + "|" + lowercased(artist)`.
This refinement definition follows the spec's words (for comparison with the
source's `song_identity`, which additionally strips and returns `None` for
blank title/artist pairs). -/
def spec_identity_key (s : Song) : String :=
  match s.id with
  | some i => "id:" ++ lower_str i
  | none => lower_str s.title ++ "|" ++ lower_str s.artist

/-! ## Claim theorems -/

/-- C5 counterexample: the round-1 batch size for `limit = 10` is neither 10
for label "Any" nor 20 for label "Under the Radar" — the source
`compute_first_request_size` never reads `popularity_label` and returns
`min(max(int(10 * 1.5), 10), 30) = 15` for both. -/
theorem first_request_size_scenarios_false :
    compute_first_request_size 10 (some "Any") ≠ 10 ∧
    compute_first_request_size 10 (some "Under the Radar") ≠ 20 := by decide

/-- C5 amended: with `limit = 10` the round-1 batch size is 15 regardless of
the popularity label (the label parameter is ignored by the sizing formula). -/
theorem first_request_size_limit_ten (label : Option String) :
    compute_first_request_size 10 label = 15 := rfl

/-- C10: `normalize_limit` always lands in [10, 50]; an unparseable value or
one outside [10, 50] is replaced by the default 10 (never clamped to the
nearer bound, never an error), and in-range values pass through unchanged. -/
theorem normalize_limit_defaults (raw : Option Int) :
    10 ≤ normalize_limit raw ∧ normalize_limit raw ≤ 50 ∧
    (raw = none → normalize_limit raw = 10) ∧
    (∀ v, raw = some v → (v < 10 ∨ 50 < v) → normalize_limit raw = 10) ∧
    (∀ v, raw = some v → 10 ≤ v → v ≤ 50 → normalize_limit raw = v) := by
  rcases raw with _ | v
  · simp [normalize_limit]
  · by_cases h : v < 10 ∨ 50 < v
    · refine ⟨?_, ?_, ?_, ?_, ?_⟩
      · simp only [normalize_limit, if_pos h]; norm_num
      · simp only [normalize_limit, if_pos h]; norm_num
      · intro h'; cases h'
      · intro w hw _; simp only [normalize_limit, if_pos h]
      · intro w hw h1 h2; injection hw with hw; omega
    · refine ⟨?_, ?_, ?_, ?_, ?_⟩
      · simp only [normalize_limit, if_neg h]; omega
      · simp only [normalize_limit, if_neg h]; omega
      · intro h'; cases h'
      · intro w hw hcontra; injection hw with hw; omega
      · intro w hw _ _; injection hw with hw; subst hw; simp only [normalize_limit, if_neg h]

/-- C10 witness: the out-of-range value 60 is replaced by the default 10. -/
theorem normalize_limit_defaults_witness : normalize_limit (some 60) = 10 :=
  (normalize_limit_defaults (some 60)).2.2.2.1 60 rfl (Or.inr (by norm_num))

/-- C8 counterexample: `_primary_artist` preserves the original casing — on
"Artist A feat. Artist B" it returns "Artist A", not the lowercased
"artist a" the claim states (lowercasing happens only later, inside the
scoring comparisons). -/
theorem primary_artist_case_cex :
    primary_artist "Artist A feat. Artist B" ≠ "artist a" := by decide

/-- C8 amended: cleaning "Song (Live) - Remastered 2011" yields "song", and
the primary artist extracted from "Artist A feat. Artist B" is "Artist A"
(case preserved). -/
theorem clean_title_primary_artist_values :
    clean_title "Song (Live) - Remastered 2011" = "song" ∧
    primary_artist "Artist A feat. Artist B" = "Artist A" := by
  exact ⟨rfl, rfl⟩

/-- C2 counterexample: with the AI suggester returning zero candidates on
both rounds, the acquisition rounds return a successful empty list — the
opposite of a terminal failure — and the entry point's only failure is the
input-independent `AttributeError` from the undefined
`Config.get_ai_provider` lookup at line 191.  No `NoCandidatesError` exists
anywhere in the source. -/
theorem zero_candidates_returns_ok_empty :
    generate_recommendations_rounds (.ok []) (.ok []) 10 none none = .ok [] ∧
    generate_recommendations (.ok []) (.ok []) 10 none none = .error .attributeError :=
  ⟨rfl, rfl⟩

/-- C2 amended: a zero-candidate first round is not a terminal condition.
The round logic retries once and, when the second round also produces
nothing, returns `ok []` (a successful empty result) for every limit and
popularity bound; and the staged entry point fails identically — the
`AttributeError` from the undefined provider lookup — whether or not the
first round has candidates, so no failure is tied to zero candidates. -/
theorem zero_candidates_not_terminal (limit : Nat) (minP maxP : Option Int) :
    generate_recommendations_rounds (.ok []) (.ok []) limit minP maxP = .ok [] ∧
    generate_recommendations (.ok []) (.ok []) limit minP maxP
      = generate_recommendations (.ok [⟨"Song", "Artist"⟩]) (.ok []) limit minP maxP := by
  constructor
  · have h : (0 : Nat) < max 1 (limit / 2) := lt_of_lt_of_le one_pos (le_max_left _ _)
    simp [generate_recommendations_rounds, request_and_enrich, h, finalize_songs,
      filter_by_popularity_with_seen, add_unique_songs, filter_loop, backfill_invoked]
  · rfl

/-- C1: the source cannot deliver the claimed behaviour — the flow raises on
every request.  First conjunct: `generate_recommendations`' opening
statement, `Config.get_ai_provider()` (search_controller.py:191), raises
`AttributeError` (no such method exists) before any AI round runs.  Second
conjunct: even past that lookup, a first round returning one candidate
reaches search_controller.py:222, whose `min_popularity=` keyword call into
`SpotifyService.enrich_songs` (a function with no such parameter) raises
`TypeError`.  Third conjunct: the claim's other half is honoured by
`enrich_songs` itself — its per-track exception handler means a failed
lookup never aborts the batch (one output entry per input, always). -/
theorem recommendation_flow_always_raises :
    generate_recommendations (.ok [⟨"Song", "Artist"⟩]) (.ok []) 10 none none
      = .error .attributeError ∧
    generate_recommendations_rounds (.ok [⟨"Song", "Artist"⟩]) (.ok []) 10 none none
      = .error .typeError ∧
    ∀ (lookup : AiSong → Except Unit (Option SpotifyTrack)) (songs : List AiSong),
      (enrich_songs lookup songs).length = songs.length := by
  exact ⟨rfl, rfl, fun lookup songs => by simp [enrich_songs]⟩

/-- C7 counterexample: a response that stays unparseable even after the
salvage pass is not treated as a zero-candidate round — `recommend_songs`
itself raises (`Exception("Gemini API error: ...")`,
gemini_service.py:209-211) instead of returning `{'songs': []}`. -/
theorem unparseable_after_salvage_raises :
    recommend_songs_from_parse none none 10 = .error .geminiApiError := rfl

/-- C7 amended: when the raw content fails to parse, the salvaged text is
used exactly as a direct parse would be; a parse that succeeds but yields no
valid candidate gives a zero-candidate round (`ok []`); only a response that
remains unparseable after salvage escalates to a request-level failure. -/
theorem salvage_semantics :
    (∀ n, recommend_songs_from_parse none none n = .error .geminiApiError) ∧
    (∀ p n, recommend_songs_from_parse none (some p) n
        = recommend_songs_from_parse (some p) none n) ∧
    (∀ items n, collect_valid_songs items [] 0 n = [] →
        recommend_songs_from_parse none (some (.dictWithSongs items)) n = .ok []) := by
  refine ⟨fun n => rfl, fun p n => rfl, fun items n h => ?_⟩
  simp [recommend_songs_from_parse, h]

/-- C7 witness: a salvaged response parsing to `{"songs": [42]}` (one
non-dict entry, so no valid candidate) yields a zero-candidate round. -/
theorem salvage_semantics_witness :
    recommend_songs_from_parse none (some (.dictWithSongs [.nonDict])) 10 = .ok [] :=
  salvage_semantics.2.2 [.nonDict] 10 rfl

/-- C6 counterexample: the client-supplied reversed range `[90, 10]` resolves
to `min_popularity = 85 > 15 = max_popularity`, violating the invariant. -/
theorem reversed_client_range_cex :
    (resolve_popularity_constraints ⟨none, some (90, 10), none⟩).min_popularity = some 85 ∧
    (resolve_popularity_constraints ⟨none, some (90, 10), none⟩).max_popularity = some 15 ∧
    ¬ ((85 : Int) ≤ 15) := ⟨rfl, rfl, by norm_num⟩

/-- Every label band is a well-formed sub-interval of [0, 100]. -/
theorem popularity_ranges_wellformed (l : String) (lo hi : Int)
    (h : popularity_ranges l = some (lo, hi)) : 0 ≤ lo ∧ lo ≤ hi ∧ hi ≤ 100 := by
  unfold popularity_ranges at h
  split_ifs at h <;> simp at h <;> omega

theorem label_band_wellformed (l : Option String) (lo hi : Int)
    (h : label_band l = some (lo, hi)) : 0 ≤ lo ∧ lo ≤ hi ∧ hi ≤ 100 := by
  unfold label_band at h
  cases l with
  | none => cases h
  | some s => exact popularity_ranges_wellformed s lo hi h

theorem legacy_band_wellformed (g : Option Int) (lo hi : Int)
    (h : legacy_band g = some (lo, hi)) : 0 ≤ lo ∧ lo ≤ hi ∧ hi ≤ 100 := by
  rcases g with _ | v
  · simp [legacy_band] at h
  · simp only [legacy_band] at h
    split_ifs at h with hv
    injection h with h
    injection h with h1 h2
    subst h1; subst h2
    omega

/-- A raw band coming from the label bands or the legacy path — or from a
well-formed client range — is a sub-interval of [0, 100]. -/
theorem resolved_raw_band_wellformed (d : PopInput)
    (hrange : ∀ a b, d.popularity_range = some (a, b) → 0 ≤ a ∧ a ≤ b ∧ b ≤ 100)
    (lo hi : Int) (h : resolved_raw_band d = some (lo, hi)) :
    0 ≤ lo ∧ lo ≤ hi ∧ hi ≤ 100 := by
  unfold resolved_raw_band at h
  cases hd : d.popularity_range with
  | some p =>
    obtain ⟨a, b⟩ := p
    simp only [hd] at h
    injection h with h
    injection h with h1 h2
    subst h1; subst h2
    exact hrange a b hd
  | none =>
    simp only [hd] at h
    cases hl : label_band (clean_label d.popularity_label) with
    | some p =>
      obtain ⟨a, b⟩ := p
      simp only [hl] at h
      injection h with h
      injection h with h1 h2
      subst h1; subst h2
      exact label_band_wellformed _ a b hl
    | none =>
      simp only [hl] at h
      exact legacy_band_wellformed d.legacy lo hi h

theorem extra_tolerance_nonneg (l : Option String) : 0 ≤ extra_tolerance l := by
  unfold extra_tolerance
  split <;> norm_num

/-- C6 amended: `min_popularity ≤ max_popularity` holds whenever the raw band
is well-formed — always the case when it derives from a label band or the
legacy value; a client-supplied `popularity_range` must itself satisfy
`0 ≤ lo ≤ hi ≤ 100` (a reversed or out-of-range pair can break the
invariant, as the counterexample shows). -/
theorem resolved_bounds_ordered (d : PopInput)
    (hrange : ∀ a b, d.popularity_range = some (a, b) → 0 ≤ a ∧ a ≤ b ∧ b ≤ 100)
    (m M : Int)
    (hm : (resolve_popularity_constraints d).min_popularity = some m)
    (hM : (resolve_popularity_constraints d).max_popularity = some M) :
    m ≤ M := by
  have he := extra_tolerance_nonneg (clean_label d.popularity_label)
  simp only [resolve_popularity_constraints] at hm hM
  cases hb : resolved_raw_band d with
  | none => rw [hb] at hm; cases hm
  | some p =>
    obtain ⟨lo, hi⟩ := p
    rw [hb] at hm hM
    simp only [Option.map_some'] at hm hM
    injection hm with hm
    injection hM with hM
    obtain ⟨h0, h1, h2⟩ := resolved_raw_band_wellformed d hrange lo hi hb
    subst hm; subst hM
    simp only [base_tolerance]
    refine le_min (max_le (by norm_num) (by omega)) (max_le (by omega) (by omega))

/-- C6 witness: the "Under the Radar" label resolves to bounds
`[0, 34]` and the theorem yields `0 ≤ 34`. -/
theorem resolved_bounds_ordered_witness : (0 : Int) ≤ 34 :=
  resolved_bounds_ordered ⟨some "Under the Radar", none, none⟩
    (fun a b h => nomatch h) 0 34 rfl rfl

/-- Appending a song with a defined key extends the key list by that key. -/
theorem keys_of_append_some {s : Song} {k : String} (l : List Song)
    (h : song_identity s = some k) : keys_of (l ++ [s]) = keys_of l ++ [k] := by
  simp [keys_of, List.filterMap_append, h]

/-- Appending a song with no key leaves the key list unchanged. -/
theorem keys_of_append_none {s : Song} (l : List Song)
    (h : song_identity s = none) : keys_of (l ++ [s]) = keys_of l := by
  simp [keys_of, List.filterMap_append, h]

/-- `add_unique_songs` preserves the dedup invariant: if the accumulated
keys are distinct and all recorded in `seen`, the same holds afterwards. -/
theorem add_unique_songs_keys (songs : List Song) :
    ∀ target seen, (keys_of target).Nodup → (∀ k ∈ keys_of target, k ∈ seen) →
      (keys_of (add_unique_songs target songs seen).1).Nodup ∧
      ∀ k ∈ keys_of (add_unique_songs target songs seen).1,
        k ∈ (add_unique_songs target songs seen).2 := by
  induction songs with
  | nil => intro target seen h1 h2; exact ⟨h1, h2⟩
  | cons s rest ih =>
    intro target seen h1 h2
    cases hid : song_identity s with
    | some k =>
      by_cases hk : k ∈ seen
      · simpa only [add_unique_songs, hid, if_pos hk] using ih target seen h1 h2
      · have hknot : k ∉ keys_of target := fun hmem => hk (h2 k hmem)
        have hnodup : (keys_of (target ++ [s])).Nodup := by
          rw [keys_of_append_some target hid]
          simp [List.nodup_append, h1, hknot]
        have hmem2 : ∀ k2 ∈ keys_of (target ++ [s]), k2 ∈ k :: seen := by
          rw [keys_of_append_some target hid]
          intro k2 hk2
          rcases List.mem_append.mp hk2 with h | h
          · exact List.mem_cons_of_mem _ (h2 k2 h)
          · simp only [List.mem_singleton] at h
            subst h
            exact List.mem_cons_self _ _
        simpa only [add_unique_songs, hid, if_neg hk]
          using ih (target ++ [s]) (k :: seen) hnodup hmem2
    | none =>
      have hnodup : (keys_of (target ++ [s])).Nodup := by
        rw [keys_of_append_none target hid]; exact h1
      have hmem2 : ∀ k2 ∈ keys_of (target ++ [s]), k2 ∈ seen := by
        rw [keys_of_append_none target hid]; exact h2
      simpa only [add_unique_songs, hid] using ih (target ++ [s]) seen hnodup hmem2

/-- The popularity-filter loop preserves the same dedup invariant. -/
theorem filter_loop_keys (songs : List Song) :
    ∀ acc minP maxP seen, (keys_of acc).Nodup → (∀ k ∈ keys_of acc, k ∈ seen) →
      (keys_of (filter_loop acc songs minP maxP seen).1).Nodup ∧
      ∀ k ∈ keys_of (filter_loop acc songs minP maxP seen).1,
        k ∈ (filter_loop acc songs minP maxP seen).2 := by
  induction songs with
  | nil => intro acc minP maxP seen h1 h2; exact ⟨h1, h2⟩
  | cons s rest ih =>
    intro acc minP maxP seen h1 h2
    by_cases hb : below_min minP (s.popularity.getD 0) = true
    · simpa only [filter_loop, hb, if_true] using ih acc minP maxP seen h1 h2
    · rw [Bool.not_eq_true] at hb
      by_cases ha : above_max maxP (s.popularity.getD 0) = true
      · simpa only [filter_loop, hb, ha, Bool.false_eq_true, if_false, if_true]
          using ih acc minP maxP seen h1 h2
      · rw [Bool.not_eq_true] at ha
        cases hid : song_identity s with
        | some k =>
          by_cases hk : k ∈ seen
          · simpa only [filter_loop, hb, ha, Bool.false_eq_true, if_false, hid, if_pos hk]
              using ih acc minP maxP seen h1 h2
          · have hknot : k ∉ keys_of acc := fun hmem => hk (h2 k hmem)
            have hnodup : (keys_of (acc ++ [s])).Nodup := by
              rw [keys_of_append_some acc hid]
              simp [List.nodup_append, h1, hknot]
            have hmem2 : ∀ k2 ∈ keys_of (acc ++ [s]), k2 ∈ k :: seen := by
              rw [keys_of_append_some acc hid]
              intro k2 hk2
              rcases List.mem_append.mp hk2 with h | h
              · exact List.mem_cons_of_mem _ (h2 k2 h)
              · simp only [List.mem_singleton] at h
                subst h
                exact List.mem_cons_self _ _
            simpa only [filter_loop, hb, ha, Bool.false_eq_true, if_false, hid, if_neg hk]
              using ih (acc ++ [s]) minP maxP (k :: seen) hnodup hmem2
        | none =>
          have hnodup : (keys_of (acc ++ [s])).Nodup := by
            rw [keys_of_append_none acc hid]; exact h1
          have hmem2 : ∀ k2 ∈ keys_of (acc ++ [s]), k2 ∈ seen := by
            rw [keys_of_append_none acc hid]; exact h2
          simpa only [filter_loop, hb, ha, Bool.false_eq_true, if_false, hid]
            using ih (acc ++ [s]) minP maxP seen hnodup hmem2

/-- The filter entry point establishes the invariant from an empty
accumulator, for any incoming seen-set. -/
theorem filter_keys (songs : List Song) (minP maxP : Option Int) (seen : List String) :
    (keys_of (filter_by_popularity_with_seen songs minP maxP seen).1).Nodup ∧
    ∀ k ∈ keys_of (filter_by_popularity_with_seen songs minP maxP seen).1,
      k ∈ (filter_by_popularity_with_seen songs minP maxP seen).2 := by
  unfold filter_by_popularity_with_seen
  split_ifs with h
  · exact add_unique_songs_keys songs [] seen (by simp [keys_of]) (by simp [keys_of])
  · exact filter_loop_keys songs [] minP maxP seen (by simp [keys_of]) (by simp [keys_of])

/-- The backfill padding loop preserves distinctness of defined keys. -/
theorem pad_loop_keys (pool : List Song) :
    ∀ padded seen limit, (keys_of padded).Nodup → (∀ k ∈ keys_of padded, k ∈ seen) →
      (keys_of (pad_loop padded pool seen limit).1).Nodup := by
  induction pool with
  | nil => intro padded seen limit h1 _; exact h1
  | cons s rest ih =>
    intro padded seen limit h1 h2
    by_cases hl : limit ≤ padded.length
    · simpa only [pad_loop, if_pos hl] using h1
    · have hstep := add_unique_songs_keys [s] padded seen h1 h2
      simpa only [pad_loop, if_neg hl]
        using ih (add_unique_songs padded [s] seen).1 (add_unique_songs padded [s] seen).2
          limit hstep.1 hstep.2

/-- C4 amended: across all rounds and any backfill padding, the entries of
the final list that possess an identity key (per the source's
`_song_identity`) are pairwise distinct; entries whose key is `None`
(no id and blank title/artist) bypass deduplication, so only the defined
keys are guaranteed unique — see the counterexample. -/
theorem final_list_defined_keys_nodup (pool : List Song) (minP maxP : Option Int)
    (limit attempt max_attempts : Nat) :
    ((finalize_songs pool minP maxP limit attempt max_attempts).filterMap song_identity).Nodup := by
  have hfil := filter_keys pool minP maxP []
  have htake : ∀ l : List Song, (keys_of l).Nodup →
      ((l.take limit).filterMap song_identity).Nodup := fun l h =>
    List.Nodup.sublist (List.Sublist.filterMap song_identity (List.take_sublist limit l)) h
  simp only [finalize_songs]
  split
  · exact htake _ (pad_loop_keys pool _ _ limit hfil.1 (fun k hk => hk))
  · exact htake _ hfil.1

/-- C4 counterexample: with the identity key exactly as the claim words it,
two degenerate entries (no id, empty title and artist — e.g. two different
AI candidates that both resolved to an empty Spotify payload) survive into
the final list sharing the key `"|"`, because the source's `_song_identity`
returns `None` for them and `add_unique_songs` appends key-less songs
unconditionally. -/
theorem final_list_can_repeat_degenerate_key :
    ¬ ((finalize_songs [⟨none, "", "", none⟩, ⟨none, "", "", none⟩] none none 2 1 2).map
        spec_identity_key).Nodup := by decide

/-- A `false` below-min test means any present lower bound is satisfied. -/
theorem below_min_false_le (minP : Option Int) (p : Int)
    (h : below_min minP p = false) : ∀ m, minP = some m → m ≤ p := by
  intro m hm
  subst hm
  simp only [below_min, decide_eq_false_iff_not] at h
  omega

/-- A `false` above-max test means any present upper bound is satisfied. -/
theorem above_max_false_le (maxP : Option Int) (p : Int)
    (h : above_max maxP p = false) : ∀ M, maxP = some M → p ≤ M := by
  intro M hM
  subst hM
  simp only [above_max, decide_eq_false_iff_not] at h
  omega

/-- Every song the filter loop emits either was already accumulated or
passed both popularity checks. -/
theorem filter_loop_mem (songs : List Song) :
    ∀ acc minP maxP seen s, s ∈ (filter_loop acc songs minP maxP seen).1 →
      s ∈ acc ∨ (below_min minP (s.popularity.getD 0) = false ∧
                 above_max maxP (s.popularity.getD 0) = false) := by
  induction songs with
  | nil => intro acc minP maxP seen s hs; exact Or.inl hs
  | cons t rest ih =>
    intro acc minP maxP seen s hs
    by_cases hb : below_min minP (t.popularity.getD 0) = true
    · rw [filter_loop] at hs
      rw [if_pos hb] at hs
      exact ih acc minP maxP seen s hs
    · rw [Bool.not_eq_true] at hb
      by_cases ha : above_max maxP (t.popularity.getD 0) = true
      · rw [filter_loop] at hs
        rw [hb] at hs
        simp only [Bool.false_eq_true, if_false, if_pos ha] at hs
        exact ih acc minP maxP seen s hs
      · rw [Bool.not_eq_true] at ha
        rw [filter_loop] at hs
        rw [hb, ha] at hs
        simp only [Bool.false_eq_true, if_false] at hs
        cases hid : song_identity t with
        | some k =>
          simp only [hid] at hs
          by_cases hk : k ∈ seen
          · rw [if_pos hk] at hs
            exact ih acc minP maxP seen s hs
          · rw [if_neg hk] at hs
            rcases ih _ minP maxP _ s hs with h | h
            · rcases List.mem_append.mp h with h | h
              · exact Or.inl h
              · simp only [List.mem_singleton] at h
                subst h
                exact Or.inr ⟨hb, ha⟩
            · exact Or.inr h
        | none =>
          simp only [hid] at hs
          rcases ih _ minP maxP _ s hs with h | h
          · rcases List.mem_append.mp h with h | h
            · exact Or.inl h
            · simp only [List.mem_singleton] at h
              subst h
              exact Or.inr ⟨hb, ha⟩
          · exact Or.inr h

/-- C3: when the backfill padding pass is not invoked, every song in the
final list satisfies whichever popularity bounds are present, with the
song's popularity read exactly as the filter reads it
(`song.get("popularity", 0)`). -/
theorem no_backfill_popularity_within_bounds (pool : List Song) (minP maxP : Option Int)
    (limit attempt max_attempts : Nat)
    (hnb : backfill_invoked pool minP maxP limit attempt max_attempts = false)
    (s : Song) (hs : s ∈ finalize_songs pool minP maxP limit attempt max_attempts) :
    (∀ m, minP = some m → m ≤ s.popularity.getD 0) ∧
    (∀ M, maxP = some M → s.popularity.getD 0 ≤ M) := by
  simp only [finalize_songs, hnb, Bool.false_eq_true, if_false] at hs
  have hs' : s ∈ (filter_by_popularity_with_seen pool minP maxP []).1 :=
    (List.take_sublist _ _).subset hs
  by_cases hnone : minP = none ∧ maxP = none
  · obtain ⟨h1, h2⟩ := hnone
    subst h1; subst h2
    exact ⟨(fun m hm => nomatch hm), (fun M hM => nomatch hM)⟩
  · unfold filter_by_popularity_with_seen at hs'
    rw [if_neg hnone] at hs'
    rcases filter_loop_mem pool [] minP maxP [] s hs' with h | h
    · cases h
    · exact ⟨below_min_false_le _ _ h.1, above_max_false_le _ _ h.2⟩

/-- C3 witness: a single in-band track (popularity 50, bounds [40, 60])
survives filtering with no padding, and the theorem bounds it. -/
theorem no_backfill_popularity_within_bounds_witness :
    (40 : Int) ≤ (Song.mk (some "t1") "T" "A" (some 50)).popularity.getD 0 ∧
    (Song.mk (some "t1") "T" "A" (some 50)).popularity.getD 0 ≤ 60 :=
  ⟨(no_backfill_popularity_within_bounds [⟨some "t1", "T", "A", some 50⟩]
      (some 40) (some 60) 1 2 2 (by decide) _ (by decide)).1 40 rfl,
   (no_backfill_popularity_within_bounds [⟨some "t1", "T", "A", some 50⟩]
      (some 40) (some 60) 1 2 2 (by decide) _ (by decide)).2 60 rfl⟩

/-- With a positive lower bound, the filter loop drops every song whose dict
has no `"popularity"` key (its effective popularity is the default 0). -/
theorem filter_loop_all_none (pool : List Song) :
    ∀ (acc : List Song) (m : Int) (maxP : Option Int) (seen : List String),
      0 < m → (∀ s ∈ pool, s.popularity = none) →
      filter_loop acc pool (some m) maxP seen = (acc, seen) := by
  induction pool with
  | nil => intro acc m maxP seen _ _; rfl
  | cons s rest ih =>
    intro acc m maxP seen hm hall
    have hpop : s.popularity = none := hall s (List.mem_cons_self s rest)
    have hbm : below_min (some m) (s.popularity.getD 0) = true := by
      simp only [below_min, hpop, Option.getD_none, decide_eq_true_eq]
      omega
    rw [filter_loop, if_pos hbm]
    exact ih acc m maxP seen hm (fun t ht => hall t (List.mem_cons_of_mem s ht))

/-- C9: enrichment output never carries a `"popularity"` key — both
`_build_track_payload` and the fallback basic entries omit it — so with any
positive `min_popularity` the popularity filter (which defaults a missing
key to 0) drops every track, and the final list is exactly the unfiltered
padding pass over the accumulated pool, truncated to `limit`. -/
theorem enriched_tracks_filtered_out_when_min_positive :
    (∀ (lookup : AiSong → Except Unit (Option SpotifyTrack)) (songs : List AiSong),
       ∀ s ∈ enrich_songs lookup songs, s.popularity = none) ∧
    (∀ (pool : List Song) (m : Int) (maxP : Option Int) (seen : List String),
       0 < m → (∀ s ∈ pool, s.popularity = none) →
       (filter_by_popularity_with_seen pool (some m) maxP seen).1 = []) ∧
    (∀ (pool : List Song) (m : Int) (maxP : Option Int) (limit attempt max_attempts : Nat),
       0 < m → (∀ s ∈ pool, s.popularity = none) → pool ≠ [] → 0 < limit →
       finalize_songs pool (some m) maxP limit attempt max_attempts
         = ((pad_loop [] pool [] limit).1).take limit) := by
  have hB : ∀ (pool : List Song) (m : Int) (maxP : Option Int) (seen : List String),
      0 < m → (∀ s ∈ pool, s.popularity = none) →
      (filter_by_popularity_with_seen pool (some m) maxP seen).1 = [] := by
    intro pool m maxP seen hm hall
    unfold filter_by_popularity_with_seen
    rw [if_neg (by simp)]
    rw [filter_loop_all_none pool [] m maxP seen hm hall]
  refine ⟨?_, hB, ?_⟩
  · intro lookup songs s hs
    simp only [enrich_songs, List.mem_map] at hs
    obtain ⟨a, _, ha⟩ := hs
    subst ha
    cases hla : lookup a with
    | error e => simp only [hla]; rfl
    | ok o =>
      cases o with
      | none => simp only [hla]; rfl
      | some t => simp only [hla]; rfl
  · intro pool m maxP limit attempt max_attempts hm hall hpool hlimit
    have hfe := hB pool m maxP [] hm hall
    have hpe : pool.isEmpty = false := by
      cases pool with
      | nil => exact absurd rfl hpool
      | cons a l => rfl
    have hbf : backfill_invoked pool (some m) maxP limit attempt max_attempts = true := by
      simp only [backfill_invoked, hfe, hpe, List.length_nil, Bool.not_false, Bool.and_true]
      simp [hlimit]
    simp only [finalize_songs, hfe, hbf, if_true, List.filterMap_nil]

/-- C9 witness: one unresolved basic entry with `min_popularity = 1` — the
entry carries no popularity, the filter empties the list, and the final list
comes from the padding pass. -/
theorem enriched_tracks_filtered_out_when_min_positive_witness :
    (basic_entry ⟨"T", "A"⟩).popularity = none ∧
    (filter_by_popularity_with_seen [basic_entry ⟨"T", "A"⟩] (some 1) none []).1 = [] ∧
    finalize_songs [basic_entry ⟨"T", "A"⟩] (some 1) none 1 2 2
      = ((pad_loop [] [basic_entry ⟨"T", "A"⟩] [] 1).1).take 1 :=
  ⟨enriched_tracks_filtered_out_when_min_positive.1 (fun _ => Except.ok none) [⟨"T", "A"⟩]
      (basic_entry ⟨"T", "A"⟩) (by simp [enrich_songs]),
   enriched_tracks_filtered_out_when_min_positive.2.1 [basic_entry ⟨"T", "A"⟩] 1 none []
      (by norm_num) (by decide),
   enriched_tracks_filtered_out_when_min_positive.2.2 [basic_entry ⟨"T", "A"⟩] 1 none 1 2 2
      (by norm_num) (by decide) (by decide) (by norm_num)⟩
